import Mathlib

/-!
Verification of the SimpleX ↔ n8n message-relay bridge
(`src/simplex-bridge-v2/bridge_v2.py`, with `src/scripts/bridge.py` a
subset of it).

The development shallowly embeds the relay's data model and operations:
the cursor (deduplication) map, the rate limiter, the event normalizer
(`extract_direct_message` / `extract_group_message` / `extract_message`),
the webhook forwarder (`post_with_retry`), the relay loop steps
(`process_single_message`, the batch of `fetch_and_process_messages`),
the correlated WebSocket command (`ws_cmd`), cursor persistence
(`load_state` / `save_state`), and the `/send` control endpoint
(`handle_send`).

Machine-level effects are made explicit: the webhook sink is a function
from a message to a success flag, wall-clock time is an explicit `Int`
parameter (seconds), the WebSocket is a list of receive events, and the
filesystem is a two-field record (state file, temp file).  Python dicts
from JSON become typed records with `Option` fields; `dict.get(k) or {}`
becomes `Option.getD` with the all-`none` record.
-/

namespace Bridge

/-- Python's `str.strip()` on the strings the bridge handles:
drop leading and trailing whitespace. -/
def pyStrip (s : String) : String :=
  ⟨((s.data.dropWhile Char.isWhitespace).reverse.dropWhile Char.isWhitespace).reverse⟩

/-- Python dict assignment `m[k] = v` on an association list:
replace the binding if the key is present, else append it. -/
def setAssoc {β : Type} : List (String × β) → String → β → List (String × β)
  | [], k, v => [(k, v)]
  | (k', v') :: rest, k, v =>
    if k' = k then (k, v) :: rest else (k', v') :: setAssoc rest k v

/-- The configuration fields of `BridgeConfig` the relay logic reads
(bridge_v2.py lines 51-74); defaults are the dataclass defaults. -/
structure BridgeConfig where
  webhook_max_retries : Nat := 3
  webhook_retry_backoff : ℚ := 2
  rate_limit_per_minute : Nat := 20
  enable_group_chat : Bool := false
  debug_ws_events : Bool := false
deriving DecidableEq

/-! ## Raw transport records

Typed counterparts of the JSON dict paths `extract_direct_message` and
`extract_group_message` read.  A `none` field models an absent key (and a
JSON `null` value, which `dict.get` likewise turns into `None`). -/

structure RawVoice where
  filePath : Option String := none
  duration : Option Int := none
deriving DecidableEq

structure RawImage where
  filePath : Option String := none
deriving DecidableEq

structure RawFile where
  filePath : Option String := none
  fileName : Option String := none
  fileSize : Option Int := none
deriving DecidableEq

structure RawMsgContent where
  type : Option String := none
  text : Option String := none
  voice : Option RawVoice := none
  image : Option RawImage := none
  file : Option RawFile := none
deriving DecidableEq

structure RawContent where
  msgContent : Option RawMsgContent := none
deriving DecidableEq

structure RawMeta where
  itemId : Option Int := none
  itemTs : Option Int := none
  createdAt : Option Int := none
deriving DecidableEq

structure RawChatDir where
  type : Option String := none
deriving DecidableEq

structure RawChatItem where
  chatDir : Option RawChatDir := none
  meta : Option RawMeta := none
  content : Option RawContent := none
deriving DecidableEq

structure RawContact where
  contactId : Option Int := none
  localDisplayName : Option String := none
deriving DecidableEq

structure RawGroupInfo where
  groupId : Option Int := none
  displayName : Option String := none
deriving DecidableEq

structure RawGroupMember where
  groupMemberId : Option Int := none
  displayName : Option String := none
deriving DecidableEq

structure RawChatInfo where
  type : Option String := none
  contact : Option RawContact := none
  groupInfo : Option RawGroupInfo := none
  groupMember : Option RawGroupMember := none
deriving DecidableEq

structure RawChatRecord where
  chatInfo : Option RawChatInfo := none
  chatItem : Option RawChatItem := none
deriving DecidableEq

/-! ## Normalized messages -/

/-- The conversation-identifying fields the extraction functions put in the
returned dict: `contactId`/`displayName` for direct chats
(bridge_v2.py line 448-449), `groupId`/`groupName`/`memberId`/`displayName`
for group chats (lines 537-540). -/
inductive ConvInfo where
  | direct (contactId : Int) (displayName : String)
  | group (groupId : Int) (groupName : String) (memberId : Option Int)
      (displayName : String)
deriving DecidableEq

/-- A normalized message as built by `extract_direct_message` /
`extract_group_message`.  The kind-specific metadata fields are
`Option (Option _)`: the outer layer records whether the key is present in
the returned dict at all, the inner layer the (possibly null) value taken
from the record.  The opaque `raw` dict forwarded verbatim is not modelled;
no claim depends on it. -/
structure Message where
  conv : ConvInfo
  type : String
  text : String
  itemId : Int
  itemTs : Option Int := none
  createdAt : Option Int := none
  chatDir : String := ""
  filePath : Option (Option String) := none
  duration : Option (Option Int) := none
  fileName : Option (Option String) := none
  fileSize : Option (Option Int) := none
deriving DecidableEq

/-- `msg["chatType"]` of the constructed dicts. -/
def Message.chatType (m : Message) : String :=
  match m.conv with
  | .direct _ _ => "direct"
  | .group _ _ _ _ => "group"

/-- `extract_direct_message` (bridge_v2.py lines 416-494). -/
def extract_direct_message (ci : RawChatRecord) : Option Message :=
  let chatInfo := ci.chatInfo.getD {}
  let contact := chatInfo.contact.getD {}
  let contact_id := contact.contactId
  let display_name := pyStrip (contact.localDisplayName.getD "")
  let chatItem := ci.chatItem.getD {}
  let chat_dir := chatItem.chatDir.getD {}
  let chat_dir_type := pyStrip (chat_dir.type.getD "")
  let meta := chatItem.meta.getD {}
  let item_id := meta.itemId
  let item_ts := meta.itemTs
  let created_at := meta.createdAt
  let content := chatItem.content.getD {}
  let msg_content := content.msgContent.getD {}
  -- Only process received messages
  if chat_dir_type ≠ "directRcv" then none
  else
    -- Must have essential fields
    match contact_id, item_id with
    | some cid, some iid =>
      let msg_type := msg_content.type.getD "text"
      let text := msg_content.text.getD ""
      if msg_type = "voice" then
        let voice := msg_content.voice.getD {}
        some { conv := .direct cid display_name, type := "voice",
               text := if text = "" then "[Voice message]" else text,
               itemId := iid, itemTs := item_ts, createdAt := created_at,
               chatDir := chat_dir_type,
               filePath := some voice.filePath, duration := some voice.duration }
      else if msg_type = "image" then
        let image := msg_content.image.getD {}
        some { conv := .direct cid display_name, type := "image",
               text := if text = "" then "[Image]" else text,
               itemId := iid, itemTs := item_ts, createdAt := created_at,
               chatDir := chat_dir_type,
               filePath := some image.filePath }
      else if msg_type = "file" then
        let file_info := msg_content.file.getD {}
        some { conv := .direct cid display_name, type := "file",
               text := if text = "" then
                   "[File: " ++ file_info.fileName.getD "unknown" ++ "]"
                 else text,
               itemId := iid, itemTs := item_ts, createdAt := created_at,
               chatDir := chat_dir_type,
               filePath := some file_info.filePath,
               fileName := some file_info.fileName,
               fileSize := some file_info.fileSize }
      else
        -- Text message
        if text = "" then none
        else
          some { conv := .direct cid display_name, type := "text", text := text,
                 itemId := iid, itemTs := item_ts, createdAt := created_at,
                 chatDir := chat_dir_type }
    | _, _ => none

/-- `extract_group_message` (bridge_v2.py lines 497-549). -/
def extract_group_message (config : BridgeConfig) (ci : RawChatRecord) :
    Option Message :=
  if ¬ config.enable_group_chat then none
  else
    let chatInfo := ci.chatInfo.getD {}
    let group_info := chatInfo.groupInfo.getD {}
    let member := chatInfo.groupMember.getD {}
    let group_id := group_info.groupId
    let group_name := group_info.displayName.getD ""
    let member_id := member.groupMemberId
    let member_name := member.displayName.getD ""
    let chatItem := ci.chatItem.getD {}
    let chat_dir := chatItem.chatDir.getD {}
    let chat_dir_type := pyStrip (chat_dir.type.getD "")
    let meta := chatItem.meta.getD {}
    let item_id := meta.itemId
    let item_ts := meta.itemTs
    let created_at := meta.createdAt
    let content := chatItem.content.getD {}
    let msg_content := content.msgContent.getD {}
    -- Only process received group messages
    if chat_dir_type ≠ "groupRcv" then none
    else
      match group_id, item_id with
      | some gid, some iid =>
        let msg_type := msg_content.type.getD "text"
        let text := msg_content.text.getD ""
        if text = "" ∧ msg_type = "text" then none
        else
          some { conv := .group gid group_name member_id member_name,
                 type := msg_type, text := text,
                 itemId := iid, itemTs := item_ts, createdAt := created_at,
                 chatDir := chat_dir_type }
      | _, _ => none

/-- `extract_message` (bridge_v2.py lines 552-562). -/
def extract_message (config : BridgeConfig) (ci : RawChatRecord) :
    Option Message :=
  let chatInfo := ci.chatInfo.getD {}
  match chatInfo.type with
  | some "direct" => extract_direct_message ci
  | some "group" => extract_group_message config ci
  | _ => none

/-! ## Metrics and rate limiting -/

/-- The `BridgeMetrics` counters the relay logic touches
(bridge_v2.py lines 179-201); `last_message_time` and the uptime fields are
wall-clock floats read only by the metrics endpoint and are not modelled. -/
structure BridgeMetrics where
  messages_received : Nat := 0
  messages_sent : Nat := 0
  messages_forwarded : Nat := 0
  webhook_failures : Nat := 0
  rate_limited : Nat := 0
  state_saves : Nat := 0
  message_types : List (String × Nat) := []
deriving DecidableEq

/-- `BridgeMetrics.record_message_type` (line 199-201): `defaultdict(int)`
increment. -/
def BridgeMetrics.record_message_type (m : BridgeMetrics) (msg_type : String) :
    BridgeMetrics :=
  { m with message_types := (setAssoc m.message_types msg_type
      (((m.message_types.lookup msg_type).getD 0) + 1)) }

/-- `RateLimiter` (bridge_v2.py lines 227-251).  Timestamps are seconds as
`Int`; `datetime.now()` is the explicit `now` argument. -/
structure RateLimiter where
  max_per_minute : Nat
  contact_timestamps : List (String × List Int) := []
deriving DecidableEq

/-- `RateLimiter.is_allowed` (lines 234-251): purge timestamps older than
the trailing 60-second window, deny when the remaining count has reached
the limit, record `now` only on admission.  Returns the flag and the
mutated limiter. -/
def RateLimiter.is_allowed (rl : RateLimiter) (now : Int) (contact_id : String) :
    Bool × RateLimiter :=
  let cutoff := now - 60
  -- Remove old timestamps (`ts > cutoff`)
  let kept := (((rl.contact_timestamps.lookup contact_id).getD []).filter
    (fun ts => cutoff < ts))
  -- Check limit
  if rl.max_per_minute ≤ kept.length then
    (false, { rl with contact_timestamps :=
        (setAssoc rl.contact_timestamps contact_id kept) })
  else
    -- Record this message
    (true, { rl with contact_timestamps :=
        (setAssoc rl.contact_timestamps contact_id (kept ++ [now])) })

/-! ## Webhook forwarder -/

/-- What one `post_to_webhook` call can come back with: a response body,
an `urllib.error.HTTPError` with a status code, or any other exception
(network error, timeout, ...). -/
inductive PostResult where
  | success (body : String)
  | httpError (code : Nat)
  | otherError
deriving DecidableEq

/-- The exception `post_with_retry` raises. -/
inductive PostError where
  | http (code : Nat)
  | other
  /-- `raise last_error` with `last_error = None` (only reachable when
  `max_retries = 0`, where Python raises a `TypeError`). -/
  | noAttempt
deriving DecidableEq

/-- Return value or raised exception of `post_with_retry`. -/
inductive RetryResult where
  | ok (body : String)
  | raised (e : PostError)
deriving DecidableEq

/-- Observable outcome of one `post_with_retry` call: how many attempts
were made, which sleeps `time.sleep` was called with (in order, seconds),
and the returned body or raised error. -/
structure RetryTrace where
  attempts : Nat
  sleeps : List ℚ
  result : RetryResult
deriving DecidableEq

/-- The `for attempt in range(max_retries)` loop of `post_with_retry`
(bridge_v2.py lines 601-626), recursing on the number of loop iterations
still to run (`remaining = max_retries - attempt`; the sleep guard
`attempt < max_retries - 1` is exactly `0 < remaining` after this attempt).
`sink attempt` is what the webhook returns on the given attempt. -/
def post_with_retry_go (backoff : ℚ) (sink : Nat → PostResult) (metrics : BridgeMetrics) :
    (remaining : Nat) → (attempt : Nat) → (last_error : Option PostError) →
    (attempts : Nat) → (sleeps : List ℚ) → RetryTrace × BridgeMetrics
  | 0, _, last_error, attempts, sleeps =>
    ({ attempts := attempts, sleeps := sleeps,
       result := (.raised (last_error.getD .noAttempt)) },
     { metrics with webhook_failures := metrics.webhook_failures + 1 })
  | remaining + 1, attempt, _, attempts, sleeps =>
    match sink attempt with
    | .success body =>
      ({ attempts := attempts + 1, sleeps := sleeps, result := .ok body }, metrics)
    | .httpError code =>
      -- Don't retry client errors (4xx) except 429 (rate limit)
      if 400 ≤ code ∧ code < 500 ∧ code ≠ 429 then
        ({ attempts := attempts + 1, sleeps := sleeps, result := .raised (.http code) },
         { metrics with webhook_failures := metrics.webhook_failures + 1 })
      else
        let sleeps' := if 0 < remaining then
            sleeps ++ [backoff * 2 ^ attempt] else sleeps
        post_with_retry_go backoff sink metrics remaining (attempt + 1)
          (some (.http code)) (attempts + 1) sleeps'
    | .otherError =>
      let sleeps' := if 0 < remaining then
          sleeps ++ [backoff * 2 ^ attempt] else sleeps
      post_with_retry_go backoff sink metrics remaining (attempt + 1)
        (some .other) (attempts + 1) sleeps'

/-- `post_with_retry` (bridge_v2.py lines 601-626; `post_with_retry` in
scripts/bridge.py lines 148-178 is the same loop without the metrics). -/
def post_with_retry (max_retries : Nat) (backoff : ℚ) (sink : Nat → PostResult)
    (metrics : BridgeMetrics) : RetryTrace × BridgeMetrics :=
  post_with_retry_go backoff sink metrics max_retries 0 none 0 []

/-! ## Relay loop -/

/-- The relay state mutated by `process_single_message`: the in-memory
cursor dict `state`, the rate limiter, and the metrics. -/
structure RelayState where
  state : List (String × Int)
  rate_limiter : RateLimiter
  metrics : BridgeMetrics
deriving DecidableEq

/-- The conversation's stored cursor: `int(state.get(state_key, 0))`. -/
def cursorAt (rs : RelayState) (key : String) : Int :=
  (rs.state.lookup key).getD 0

/-- The `state_key` computed at the top of `process_single_message`
(bridge_v2.py lines 680-685): `str(msg["contactId"])` for direct chats,
`f"group_{msg['groupId']}"` for group chats. -/
def state_key (msg : Message) : String :=
  match msg.conv with
  | .direct cid _ => toString cid
  | .group gid _ _ _ => "group_" ++ toString gid

/-- `process_single_message` (bridge_v2.py lines 677-722).  `sink msg`
tells whether `post_with_retry` on the message's payload returns (true)
or raises (false); `now` is the wall clock handed to the rate limiter.
The in-memory cursor write and `save_state` are modelled together (the
claims under proof concern the cursor value, not save failures). -/
def process_single_message (sink : Message → Bool) (now : Int) (msg : Message)
    (rs : RelayState) : Bool × RelayState :=
  let key := state_key msg
  let last_seen := (rs.state.lookup key).getD 0
  -- Skip already-processed messages
  if msg.itemId ≤ last_seen then (false, rs)
  else
    -- Rate limiting (only for direct messages)
    let gate : Bool × RelayState :=
      match msg.conv with
      | .direct _ _ =>
        let ar := rs.rate_limiter.is_allowed now key
        if ar.1 then (true, { rs with rate_limiter := ar.2 })
        else
          (false, { rs with rate_limiter := ar.2, metrics := ({ rs.metrics with rate_limited := rs.metrics.rate_limited + 1 }) })
      | .group _ _ _ _ => (true, rs)
    if gate.1 = false then (false, gate.2)
    else
      let rs1 := gate.2
      if sink msg then
        -- Update state only after successful webhook
        (true, { rs1 with
          state := (setAssoc rs1.state key msg.itemId),
          metrics := ({ (rs1.metrics.record_message_type msg.type) with
            messages_forwarded := rs1.metrics.messages_forwarded + 1,
            state_saves := rs1.metrics.state_saves + 1 }) })
      else (false, rs1)

/-- The `for msg in messages` loop of `fetch_and_process_messages`
(bridge_v2.py lines 756-761), with the per-message outcome recorded.
The `running` shutdown flag is taken as permanently true (no shutdown
during the batch). -/
def process_batch (sink : Message → Bool) (now : Int) :
    List Message → RelayState → List (Message × Bool) × RelayState
  | [], rs => ([], rs)
  | msg :: rest, rs =>
    let pr := process_single_message sink now msg rs
    let pb := process_batch sink now rest pr.2
    ((msg, pr.1) :: pb.1, pb.2)

/-- Python's `messages.sort(key=lambda m: m["itemId"])` comparison. -/
def msg_le (a b : Message) : Bool := a.itemId ≤ b.itemId

/-- `fetch_and_process_messages` (bridge_v2.py lines 725-766) after the
`/tail` response has been decoded into `chat_items`: extract, count
`messages_received`, sort oldest → newest by itemId (Python's stable sort,
embedded as the stable `List.mergeSort`), process in order, and return the
number forwarded. -/
def fetch_and_process_messages (config : BridgeConfig) (sink : Message → Bool)
    (now : Int) (chat_items : List RawChatRecord) (rs : RelayState) :
    Nat × RelayState :=
  -- Extract messages
  let messages := chat_items.filterMap (extract_message config)
  let rs0 := { rs with metrics := ({ rs.metrics with
    messages_received := rs.metrics.messages_received + messages.length }) }
  -- Sort oldest → newest
  let sorted := messages.mergeSort msg_le
  -- Process messages
  let pb := process_batch sink now sorted rs0
  ((pb.1.filter (fun p => p.2)).length, pb.2)

/-! ## Correlated WebSocket command (`ws_cmd`) -/

/-- A decoded WebSocket frame as far as `ws_cmd` inspects it:
`j.get("corrId")` and an opaque payload standing for the rest of the JSON
object (returned verbatim on a match). -/
structure WsFrame where
  corrId : Option String := none
  payload : String := ""
deriving DecidableEq

/-- One iteration's outcome of `ws.recv()` inside `ws_cmd`:
a frame (with `none` when `json.loads` fails on it), a
`WebSocketTimeoutException`, a `WebSocketConnectionClosedException`, or
any other exception. -/
inductive RecvEvent where
  | frame (parsed : Option WsFrame)
  | timeout
  | closed
  | recvError
deriving DecidableEq

/-- Outcome of the initial `ws.send(...)` in `ws_cmd`. -/
inductive SendOutcome where
  | ok
  | closed
  | sendError
deriving DecidableEq

/-- The exceptions `ws_cmd` raises. -/
inductive WsCmdError where
  | connectionError (reason : String)
  | timeoutError
deriving DecidableEq

/-- The `while time.time() < end` receive loop of `ws_cmd`
(bridge_v2.py lines 380-409).  The event list is what the socket yields,
in order; its end models the deadline expiring with nothing more to read
(the loop exits and the final `raise TimeoutError` fires, exactly as on a
`WebSocketTimeoutException`). -/
def ws_cmd_recv_loop (corr_id : String) : List RecvEvent → Except WsCmdError WsFrame
  | [] => .error .timeoutError
  | .timeout :: _ => .error .timeoutError
  | .closed :: _ => .error (.connectionError "WebSocket closed while waiting for response")
  | .recvError :: _ => .error (.connectionError "WebSocket recv failed")
  | .frame none :: rest => ws_cmd_recv_loop corr_id rest
  | .frame (some j) :: rest =>
    if j.corrId = some corr_id then .ok j
    -- non-matching frames are async events: (optionally) logged, discarded
    else ws_cmd_recv_loop corr_id rest

/-- `ws_cmd` (bridge_v2.py lines 366-409; identical in scripts/bridge.py
lines 185-231): send one command tagged `corr_id`, then wait for the
matching response. -/
def ws_cmd (corr_id : String) (send : SendOutcome) (events : List RecvEvent) :
    Except WsCmdError WsFrame :=
  match send with
  | .closed => .error (.connectionError "WebSocket closed before send")
  | .sendError => .error (.connectionError "WebSocket send failed")
  | .ok => ws_cmd_recv_loop corr_id events

/-! ## Cursor persistence (`load_state` / `save_state`) -/

/-- JSON values as produced by `json.loads` (numbers as rationals: every
finite Python float and int is one). -/
inductive Json where
  | null
  | bool (b : Bool)
  | num (q : ℚ)
  | str (s : String)
  | arr (elems : List Json)
  | obj (fields : List (String × Json))

/-- Python `int(float)`: truncation toward zero. -/
def pyIntOfRat (q : ℚ) : Int :=
  if 0 ≤ q then q.floor else q.ceil

/-- Decimal digit run to a number; `none` on a non-digit. -/
def pyDigitsAux (acc : Nat) : List Char → Option Nat
  | [] => some acc
  | c :: cs =>
    if c.isDigit then pyDigitsAux (acc * 10 + (c.toNat - 48)) cs else none

/-- Python `int(str)`: optional sign and a nonempty decimal digit run
after stripping whitespace (exotic forms like digit-group underscores are
not needed by any claim). -/
def pyIntOfString (s : String) : Option Int :=
  match (pyStrip s).data with
  | [] => none
  | '-' :: cs =>
    if cs.isEmpty then none else (pyDigitsAux 0 cs).map (fun n => -(n : Int))
  | '+' :: cs =>
    if cs.isEmpty then none else (pyDigitsAux 0 cs).map (fun n => (n : Int))
  | cs => (pyDigitsAux 0 cs).map (fun n => (n : Int))

/-- Python `int(v)` on a value decoded from JSON: `none` is the raised
`TypeError`/`ValueError`. -/
def pyInt : Json → Option Int
  | .null => none
  | .bool b => some (if b then 1 else 0)
  | .num q => some (pyIntOfRat q)
  | .str s => pyIntOfString s
  | .arr _ => none
  | .obj _ => none

/-- What reading and JSON-decoding the state file yields, one constructor
per `load_state` code path: the file is absent (`FileNotFoundError`), its
stripped content is empty, `json.loads` raises, or a JSON value parses. -/
inductive ReadResult where
  | absent
  | emptyFile
  | notJson
  | json (j : Json)

/-- `{str(k): int(v) for k, v in data.items()}` — keys of a decoded JSON
object are already strings, so `str(k)` is the identity; a failing `int(v)`
aborts the whole comprehension with the exception. -/
def coerceStateEntries : List (String × Json) → Option (List (String × Int))
  | [] => some []
  | (k, v) :: rest =>
    match pyInt v, coerceStateEntries rest with
    | some i, some tail => some ((k, i) :: tail)
    | _, _ => none

/-- `load_state` (bridge_v2.py lines 272-290; scripts/bridge.py lines
91-115): every failure path is caught and yields the empty map. -/
def load_state (r : ReadResult) : List (String × Int) :=
  match r with
  | .absent => []
  | .emptyFile => []
  | .notJson => []
  | .json j =>
    match j with
    | .obj fields =>
      match coerceStateEntries fields with
      | some m => m
      | none => []          -- int(v) raised; caught, start fresh
    | _ => []               -- "State must be a dict"; caught, start fresh

/-- The two files `save_state` touches: the contents of
`config.state_file` and of `config.state_file + ".tmp"` (`none` = file
does not exist). -/
structure FileSystem where
  state_file : Option String := none
  tmp_file : Option String := none
deriving DecidableEq

/-- How one `save_state` call can go, one constructor per code path of
bridge_v2.py lines 293-307 (identical in scripts/bridge.py lines 118-132):
`ok` — write and `os.replace` both succeed; `failWrite part` — the
`open`/`json.dump` block raises with the temp file holding `part`,
the handler removes the temp file and re-raises; `failRename` — the write
succeeded but `os.replace` raises, the handler removes the temp file and
re-raises; `crashWrite part` / `crashBeforeRename` — the process dies
mid-write or between write and rename, so no handler runs. -/
inductive SaveEvent where
  | ok
  | failWrite (part : String)
  | failRename
  | crashWrite (part : String)
  | crashBeforeRename
deriving DecidableEq

/-- What the caller of `save_state` observes. -/
inductive SaveResult where
  | success
  | raised
  | crashed
deriving DecidableEq

/-- `save_state` (bridge_v2.py lines 293-307): write the serialized map
`data` to the temp file, atomically rename it over the state file
(`os.replace`), and on any exception remove the temp file and re-raise.
`metrics.state_saves` is incremented only on success. -/
def save_state (data : String) (ev : SaveEvent) (fs : FileSystem)
    (metrics : BridgeMetrics) : SaveResult × FileSystem × BridgeMetrics :=
  match ev with
  | .ok =>
    (.success, { state_file := some data, tmp_file := none },
     { metrics with state_saves := metrics.state_saves + 1 })
  | .failWrite _ =>
    (.raised, { fs with tmp_file := none }, metrics)
  | .failRename =>
    (.raised, { fs with tmp_file := none }, metrics)
  | .crashWrite part =>
    (.crashed, { fs with tmp_file := some part }, metrics)
  | .crashBeforeRename =>
    (.crashed, { fs with tmp_file := some data }, metrics)

/-! ## Control surface: `POST /send` -/

/-- Python truthiness of `body.get(k)` for a JSON-decoded body. -/
def pyTruthy : Option Json → Bool
  | none => false
  | some .null => false
  | some (.bool b) => b
  | some (.num q) => decide (q ≠ 0)
  | some (.str s) => decide (s ≠ "")
  | some (.arr elems) => !elems.isEmpty
  | some (.obj fields) => !fields.isEmpty

/-- HTTP responses `handle_send` can write. -/
inductive SendHttpResponse where
  | ok200 (body : String)
  | err400 (body : String)
  | err500 (body : String)
deriving DecidableEq

/-- `BridgeHTTPHandler.handle_send` (bridge_v2.py lines 871-913), from the
point where the body has been JSON-decoded into an object `body`.
`send_ok` is whether `send_to_simplex` returns True.  The second component
reports whether `send_to_simplex` was reached. -/
def handle_send (body : List (String × Json)) (send_ok : Bool) :
    SendHttpResponse × Bool :=
  let contact_id := body.lookup "contactId"
  let text := body.lookup "text"
  if ¬ pyTruthy contact_id ∨ ¬ pyTruthy text then
    (.err400 "Missing contactId or text", false)
  else
    -- int(contact_id); a TypeError/ValueError here is caught by the outer
    -- `except Exception` handler and produces a 500 without any send
    match pyInt (contact_id.getD .null) with
    | none => (.err500 "error", false)
    | some _ =>
      if send_ok then (.ok200 "sent", true)
      else (.err500 "Failed to send", true)

/-! ## Derived observations used by the theorems -/

/-- The itemIds of the messages of conversation `key` the batch actually
forwarded, in processing order. -/
def forwardedIds (trace : List (Message × Bool)) (key : String) : List Int :=
  (trace.filter (fun p => p.2 && (state_key p.1 == key))).map (fun p => p.1.itemId)

/-- A rate limiter's current window for one conversation. -/
def tsAt (rl : RateLimiter) (key : String) : List Int :=
  (rl.contact_timestamps.lookup key).getD []

/-- The raw `msgContent` dict a record's extraction reads:
`((ci.get("chatItem") or {}).get("content") or {}).get("msgContent") or {}`. -/
def msgContentOf (ci : RawChatRecord) : RawMsgContent :=
  (((ci.chatItem.getD {}).content.getD {}).msgContent.getD {})

/-- The stripped `chatDir` type a record's extraction reads. -/
def chatDirTypeOf (ci : RawChatRecord) : String :=
  pyStrip ((((ci.chatItem.getD {}).chatDir.getD {}).type.getD ""))

/-! ## Concrete inputs for the claim-level examples -/

/-- A normalized direct text message from contact 100 with the given
sequence number, as `extract_direct_message` would produce it. -/
def directTextMsg (iid : Int) : Message :=
  { conv := .direct 100 "Alice", type := "text", text := "hi", itemId := iid,
    chatDir := "directRcv" }

/-- Relay state with contact 100's cursor at 5 and the default rate limit. -/
def rsCursor5 : RelayState :=
  { state := [("100", 5)], rate_limiter := { max_per_minute := 20 }, metrics := {} }

/-- Relay state with an empty cursor map and a rate limit of 2/minute. -/
def rsLimit2 : RelayState :=
  { state := [], rate_limiter := { max_per_minute := 2 }, metrics := {} }

/-- A webhook sink that rejects exactly the message with sequence 6
(`post_with_retry` raises for it) and accepts everything else. -/
def sinkFailsOn6 : Message → Bool := fun m => m.itemId != 6

/-- Raw record: direct conversation 100, direction `directRcv`,
text "hello", sequence 42. -/
def rcDirectHello : RawChatRecord :=
  { chatInfo :=
      some { type := some "direct",
             contact := some { contactId := some 100, localDisplayName := some "Alice" } },
    chatItem :=
      some { chatDir := some { type := some "directRcv" },
             meta := some { itemId := some 42 },
             content := some { msgContent := some { type := some "text", text := some "hello" } } } }

/-- The same record with direction `directSnd` (an echo of an own send). -/
def rcDirectHelloSent : RawChatRecord :=
  { chatInfo :=
      some { type := some "direct",
             contact := some { contactId := some 100, localDisplayName := some "Alice" } },
    chatItem :=
      some { chatDir := some { type := some "directSnd" },
             meta := some { itemId := some 42 },
             content := some { msgContent := some { type := some "text", text := some "hello" } } } }

/-- Raw record: group conversation 7, direction `groupRcv`, a voice
message with no caption text, with file path and duration present. -/
def rcGroupVoiceNoCaption : RawChatRecord :=
  { chatInfo :=
      some { type := some "group",
             groupInfo := some { groupId := some 7 } },
    chatItem :=
      some { chatDir := some { type := some "groupRcv" },
             meta := some { itemId := some 3 },
             content :=
               some { msgContent :=
                   some { type := some "voice",
                          voice := some { filePath := some "/v.ogg", duration := some 5 } } } } }

/-- Raw record: direct conversation 100, direction `directRcv`, a voice
message with no caption and no `voice` dict at all. -/
def rcDirectVoiceNoDict : RawChatRecord :=
  { chatInfo :=
      some { type := some "direct",
             contact := some { contactId := some 100 } },
    chatItem :=
      some { chatDir := some { type := some "directRcv" },
             meta := some { itemId := some 9 },
             content := some { msgContent := some { type := some "voice" } } } }

/-- Configuration with group-chat handling enabled. -/
def cfgGroupOn : BridgeConfig := { enable_group_chat := true }

/-! ## Lemmas about the cursor map, the relay step, and the batch loop -/

theorem lookup_setAssoc_self {β : Type} (m : List (String × β)) (k : String) (v : β) :
    (setAssoc m k v).lookup k = some v := by
  induction m with
  | nil => simp [setAssoc, List.lookup]
  | cons hd tl ih =>
    obtain ⟨k', v'⟩ := hd
    by_cases h : k' = k
    · simp [setAssoc, h, List.lookup]
    · simp only [setAssoc, if_neg h, List.lookup]
      have hb : (k == k') = false := by
        simp only [beq_eq_false_iff_ne, ne_eq]
        exact fun hk => h hk.symm
      simp [hb, ih]

theorem lookup_setAssoc_ne {β : Type} (m : List (String × β)) (k k' : String) (v : β)
    (h : k' ≠ k) : (setAssoc m k v).lookup k' = m.lookup k' := by
  induction m with
  | nil =>
    have hb : (k' == k) = false := by simp [beq_eq_false_iff_ne, h]
    simp [setAssoc, List.lookup, hb]
  | cons hd tl ih =>
    obtain ⟨k₀, v₀⟩ := hd
    by_cases hk : k₀ = k
    · subst hk
      have hb : (k' == k₀) = false := by simp [beq_eq_false_iff_ne, h]
      simp [setAssoc, List.lookup, hb]
    · simp only [setAssoc, if_neg hk, List.lookup]
      by_cases hk' : k' = k₀
      · subst hk'
        simp
      · have hb : (k' == k₀) = false := by simp [beq_eq_false_iff_ne, hk']
        simp [hb, ih]

theorem psm_state_of_not_forward (sink : Message → Bool) (now : Int) (msg : Message)
    (rs : RelayState) (h : (process_single_message sink now msg rs).1 = false) :
    (process_single_message sink now msg rs).2.state = rs.state := by
  unfold process_single_message at h ⊢
  by_cases h1 : msg.itemId ≤ (rs.state.lookup (state_key msg)).getD 0
  · simp [h1]
  · simp only [if_neg h1] at h ⊢
    cases hc : msg.conv with
    | direct cid dn =>
      simp only [hc] at h ⊢
      by_cases ha : (rs.rate_limiter.is_allowed now (state_key msg)).1
      · simp only [ha, if_true] at h ⊢
        by_cases hs : sink msg
        · simp [hs] at h
        · simp [hs]
      · simp only [Bool.not_eq_true] at ha
        simp [ha]
    | group gid gn mid dn =>
      simp only [hc] at h ⊢
      by_cases hs : sink msg
      · simp [hs] at h
      · simp [hs]

theorem psm_forward (sink : Message → Bool) (now : Int) (msg : Message)
    (rs : RelayState) (h : (process_single_message sink now msg rs).1 = true) :
    sink msg = true ∧
    (rs.state.lookup (state_key msg)).getD 0 < msg.itemId ∧
    (process_single_message sink now msg rs).2.state =
      setAssoc rs.state (state_key msg) msg.itemId := by
  unfold process_single_message at h ⊢
  by_cases h1 : msg.itemId ≤ (rs.state.lookup (state_key msg)).getD 0
  · simp [h1] at h
  · simp only [if_neg h1] at h ⊢
    refine ⟨?_, by omega, ?_⟩ <;>
    · cases hc : msg.conv with
      | direct cid dn =>
        simp only [hc] at h ⊢
        by_cases ha : (rs.rate_limiter.is_allowed now (state_key msg)).1
        · simp only [ha, if_true] at h ⊢
          by_cases hs : sink msg
          · simp [hs]
          · simp [hs] at h
        · simp only [Bool.not_eq_true] at ha
          simp [ha] at h
      | group gid gn mid dn =>
        simp only [hc] at h ⊢
        by_cases hs : sink msg
        · simp [hs]
        · simp [hs] at h

theorem psm_cursor_mono (sink : Message → Bool) (now : Int) (msg : Message)
    (rs : RelayState) (k : String) :
    cursorAt rs k ≤ cursorAt (process_single_message sink now msg rs).2 k := by
  by_cases h : (process_single_message sink now msg rs).1 = true
  · obtain ⟨-, hlt, hst⟩ := psm_forward sink now msg rs h
    unfold cursorAt
    rw [hst]
    by_cases hk : k = state_key msg
    · subst hk
      rw [lookup_setAssoc_self]
      simpa using le_of_lt hlt
    · rw [lookup_setAssoc_ne _ _ _ _ hk]
  · rw [Bool.not_eq_true] at h
    unfold cursorAt
    rw [psm_state_of_not_forward sink now msg rs h]

theorem psm_cursor_of_forward (sink : Message → Bool) (now : Int) (msg : Message)
    (rs : RelayState) (h : (process_single_message sink now msg rs).1 = true) :
    cursorAt (process_single_message sink now msg rs).2 (state_key msg) = msg.itemId := by
  obtain ⟨-, -, hst⟩ := psm_forward sink now msg rs h
  unfold cursorAt
  rw [hst, lookup_setAssoc_self]
  rfl

theorem psm_cursor_change (sink : Message → Bool) (now : Int) (msg : Message)
    (rs : RelayState) (k : String)
    (h : cursorAt (process_single_message sink now msg rs).2 k ≠ cursorAt rs k) :
    sink msg = true ∧ (process_single_message sink now msg rs).1 = true ∧
    k = state_key msg ∧
    cursorAt (process_single_message sink now msg rs).2 k = msg.itemId := by
  by_cases hf : (process_single_message sink now msg rs).1 = true
  · obtain ⟨hs, -, hst⟩ := psm_forward sink now msg rs hf
    by_cases hk : k = state_key msg
    · subst hk
      exact ⟨hs, hf, rfl, psm_cursor_of_forward sink now msg rs hf⟩
    · exfalso
      apply h
      unfold cursorAt
      rw [hst, lookup_setAssoc_ne _ _ _ _ hk]
  · exfalso
    apply h
    rw [Bool.not_eq_true] at hf
    unfold cursorAt
    rw [psm_state_of_not_forward sink now msg rs hf]

theorem pb_cursor_mono (sink : Message → Bool) (now : Int) (msgs : List Message)
    (rs : RelayState) (k : String) :
    cursorAt rs k ≤ cursorAt (process_batch sink now msgs rs).2 k := by
  induction msgs generalizing rs with
  | nil => simp [process_batch]
  | cons m rest ih =>
    calc cursorAt rs k ≤ cursorAt (process_single_message sink now m rs).2 k :=
          psm_cursor_mono sink now m rs k
      _ ≤ _ := by
          simpa [process_batch] using ih (process_single_message sink now m rs).2

theorem forwardedIds_cons (m : Message) (b : Bool) (tr : List (Message × Bool))
    (k : String) :
    forwardedIds ((m, b) :: tr) k =
      if b ∧ state_key m = k then m.itemId :: forwardedIds tr k
      else forwardedIds tr k := by
  by_cases hb : b
  · by_cases hk : state_key m = k
    · simp [forwardedIds, hb, hk, List.filter]
    · have hbeq : (state_key m == k) = false := by
        simp [beq_eq_false_iff_ne, hk]
      simp [forwardedIds, hb, hk, hbeq, List.filter]
  · simp [forwardedIds, hb, List.filter]

theorem pb_forwarded_bounds (sink : Message → Bool) (now : Int) (k : String) :
    ∀ (msgs : List Message) (rs : RelayState),
    (∀ i ∈ forwardedIds (process_batch sink now msgs rs).1 k,
        cursorAt rs k < i ∧ i ≤ cursorAt (process_batch sink now msgs rs).2 k) ∧
    (forwardedIds (process_batch sink now msgs rs).1 k).Chain' (· < ·) := by
  intro msgs
  induction msgs with
  | nil => intro rs; simp [process_batch, forwardedIds]
  | cons m rest ih =>
    intro rs
    set rs1 := (process_single_message sink now m rs).2 with hrs1
    have hpb : process_batch sink now (m :: rest) rs =
        ((m, (process_single_message sink now m rs).1) :: (process_batch sink now rest rs1).1,
         (process_batch sink now rest rs1).2) := by
      simp [process_batch, hrs1]
    obtain ⟨ihb, ihc⟩ := ih rs1
    rw [hpb]
    simp only [forwardedIds_cons]
    by_cases hcase : (process_single_message sink now m rs).1 = true ∧ state_key m = k
    · obtain ⟨hf, hk⟩ := hcase
      have hlt : cursorAt rs k < m.itemId := by
        have h2 := (psm_forward sink now m rs hf).2.1
        rw [hk] at h2
        exact h2
      have hc1 : cursorAt rs1 k = m.itemId := by
        rw [← hk]
        exact psm_cursor_of_forward sink now m rs hf
      have hmono : m.itemId ≤ cursorAt (process_batch sink now rest rs1).2 k := by
        rw [← hc1]
        exact pb_cursor_mono sink now rest rs1 k
      rw [if_pos ⟨hf, hk⟩]
      constructor
      · intro i hi
        rcases List.mem_cons.mp hi with hi | hi
        · subst hi
          exact ⟨hlt, hmono⟩
        · obtain ⟨h1, h2⟩ := ihb i hi
          exact ⟨lt_trans (lt_of_lt_of_le hlt (le_of_eq hc1.symm)) h1, h2⟩
      · refine List.chain'_cons'.mpr ⟨?_, ihc⟩
        intro y hy
        have hmem : y ∈ forwardedIds (process_batch sink now rest rs1).1 k :=
          List.mem_of_mem_head? hy
        have := (ihb y hmem).1
        omega
    · rw [if_neg hcase]
      constructor
      · intro i hi
        obtain ⟨h1, h2⟩ := ihb i hi
        have : cursorAt rs k ≤ cursorAt rs1 k := psm_cursor_mono sink now m rs k
        exact ⟨lt_of_le_of_lt this h1, h2⟩
      · exact ihc


theorem mergeSort_pairwise_le (msgs : List Message) :
    (msgs.mergeSort msg_le).Pairwise (fun a b => a.itemId ≤ b.itemId) := by
  have htrans : ∀ a b c : Message, msg_le a b = true → msg_le b c = true →
      msg_le a c = true := by
    intro a b c hab hbc
    simp only [msg_le, decide_eq_true_eq] at *
    omega
  have htotal : ∀ a b : Message, (msg_le a b || msg_le b a) = true := by
    intro a b
    simp only [msg_le, Bool.or_eq_true, decide_eq_true_eq]
    omega
  have h := List.sorted_mergeSort htrans htotal msgs
  exact h.imp (by intro a b hab; simpa [msg_le, decide_eq_true_eq] using hab)

theorem mergeSort_pairwise_lt (msgs : List Message)
    (h : ((msgs.mergeSort msg_le).map Message.itemId).Nodup) :
    (msgs.mergeSort msg_le).Pairwise (fun a b => a.itemId < b.itemId) := by
  have hne : (msgs.mergeSort msg_le).Pairwise (fun a b => a.itemId ≠ b.itemId) :=
    List.pairwise_map.mp h
  have hle := mergeSort_pairwise_le msgs
  exact (hle.and hne).imp (fun hab => lt_of_le_of_ne hab.1 hab.2)

/-- C1: a message is forwarded only if its sequence number is strictly
above the conversation's stored cursor; the cursor moves only on (and to)
a confirmed successful delivery; over any batch the cursor never
decreases and the sequence numbers successfully forwarded per conversation
are strictly increasing with no duplicates; and from cursor 5, a batch
with sequences [4, 5, 6, 7] forwards exactly 6 and 7. -/
theorem C1_cursor_dedup_invariant :
    (∀ (sink : Message → Bool) (now : Int) (msg : Message) (rs : RelayState),
      (process_single_message sink now msg rs).1 = true →
      cursorAt rs (state_key msg) < msg.itemId) ∧
    (∀ (sink : Message → Bool) (now : Int) (msg : Message) (rs : RelayState)
      (k : String),
      cursorAt (process_single_message sink now msg rs).2 k ≠ cursorAt rs k →
      sink msg = true ∧ (process_single_message sink now msg rs).1 = true ∧
        k = state_key msg ∧
        cursorAt (process_single_message sink now msg rs).2 k = msg.itemId) ∧
    (∀ (sink : Message → Bool) (now : Int) (msgs : List Message)
      (rs : RelayState) (k : String),
      cursorAt rs k ≤ cursorAt (process_batch sink now msgs rs).2 k) ∧
    (∀ (sink : Message → Bool) (now : Int) (msgs : List Message)
      (rs : RelayState) (k : String),
      (forwardedIds (process_batch sink now msgs rs).1 k).Pairwise (· < ·)) ∧
    forwardedIds
      (process_batch (fun _ => true) 0
        [directTextMsg 4, directTextMsg 5, directTextMsg 6, directTextMsg 7]
        rsCursor5).1 "100" = [6, 7] := by
  refine ⟨?_, ?_, ?_, ?_, by decide⟩
  · intro sink now msg rs h
    exact (psm_forward sink now msg rs h).2.1
  · intro sink now msg rs k h
    exact psm_cursor_change sink now msg rs k h
  · intro sink now msgs rs k
    exact pb_cursor_mono sink now msgs rs k
  · intro sink now msgs rs k
    have h := (pb_forwarded_bounds sink now k msgs rs).2
    exact List.chain'_iff_pairwise.mp h

/-- Witness for C1: instantiating the invariant on the concrete batch of
its example. -/
theorem C1_cursor_dedup_invariant_witness :
    cursorAt rsCursor5 (state_key (directTextMsg 6)) < (directTextMsg 6).itemId :=
  C1_cursor_dedup_invariant.1 (fun _ => true) 0 (directTextMsg 6) rsCursor5 (by decide)

theorem psm_of_sink_false (sink : Message → Bool) (now : Int) (msg : Message)
    (rs : RelayState) (hs : sink msg = false) :
    (process_single_message sink now msg rs).1 = false ∧
    (process_single_message sink now msg rs).2.state = rs.state := by
  have hf : (process_single_message sink now msg rs).1 = false := by
    cases h : (process_single_message sink now msg rs).1 with
    | false => rfl
    | true =>
      have := (psm_forward sink now msg rs h).1
      rw [hs] at this
      exact absurd this (by simp)
  exact ⟨hf, psm_state_of_not_forward sink now msg rs hf⟩

theorem psm_retryable (sink : Message → Bool) (now : Int) (msg : Message)
    (rs : RelayState) (hcur : cursorAt rs (state_key msg) < msg.itemId)
    (hrate : ∀ cid dn, msg.conv = .direct cid dn →
        (rs.rate_limiter.is_allowed now (state_key msg)).1 = true)
    (hsink : sink msg = true) :
    (process_single_message sink now msg rs).1 = true := by
  unfold process_single_message
  have h1 : ¬ msg.itemId ≤ (rs.state.lookup (state_key msg)).getD 0 := by
    unfold cursorAt at hcur
    omega
  simp only [if_neg h1]
  cases hc : msg.conv with
  | direct cid dn =>
    have ha := hrate cid dn hc
    simp [hc, ha, hsink]
  | group gid gn mid dn =>
    simp [hc, hsink]

/-- C2, counterexample: with contact 100's cursor at 5 and a batch of
sequences 6 and 7 where the sink rejects 6 and accepts 7, the loop keeps
going after the failure: 7 is delivered and the committed cursor becomes
7, which does not correspond to an initial segment of the batch; on the
next poll message 6 is no longer above the stored cursor, so it is
permanently skipped (never retried) even by a sink that now accepts
everything — contradicting "no message is skipped". -/
theorem C2_counterexample :
    ((process_batch sinkFailsOn6 0 [directTextMsg 6, directTextMsg 7]
        rsCursor5).1.map (fun p => (p.1.itemId, p.2))) = [(6, false), (7, true)] ∧
    cursorAt (process_batch sinkFailsOn6 0 [directTextMsg 6, directTextMsg 7]
        rsCursor5).2 "100" = 7 ∧
    (process_single_message (fun _ => true) 0 (directTextMsg 6)
        (process_batch sinkFailsOn6 0 [directTextMsg 6, directTextMsg 7]
          rsCursor5).2).1 = false := by
  decide

/-- C2 (amended): within one poll batch the relay processes messages in
ascending sequence order across the whole batch (strictly ascending when
the batch's sequence numbers are distinct); a message whose forwarding
fails is not marked delivered and its own processing leaves the cursor
map unchanged; and a message that is still above its conversation's
stored cursor is attempted again on a later poll (it is forwarded as soon
as the rate limiter admits it and the sink accepts it).  The batch loop
however continues past a failure, so a later successful message of the
same conversation can advance the cursor past the failed one, in which
case the failed message is skipped rather than retried
(see the counterexample). -/
theorem C2_batch_order_and_failure :
    (∀ msgs : List Message,
      (msgs.mergeSort msg_le).Pairwise (fun a b => a.itemId ≤ b.itemId)) ∧
    (∀ msgs : List Message,
      ((msgs.mergeSort msg_le).map Message.itemId).Nodup →
      (msgs.mergeSort msg_le).Pairwise (fun a b => a.itemId < b.itemId)) ∧
    (∀ (sink : Message → Bool) (now : Int) (msg : Message) (rs : RelayState),
      sink msg = false →
      (process_single_message sink now msg rs).1 = false ∧
      (process_single_message sink now msg rs).2.state = rs.state) ∧
    (∀ (sink : Message → Bool) (now : Int) (msg : Message) (rs : RelayState),
      cursorAt rs (state_key msg) < msg.itemId →
      (∀ cid dn, msg.conv = .direct cid dn →
        (rs.rate_limiter.is_allowed now (state_key msg)).1 = true) →
      sink msg = true →
      (process_single_message sink now msg rs).1 = true) := by
  refine ⟨mergeSort_pairwise_le, mergeSort_pairwise_lt, ?_, ?_⟩
  · intro sink now msg rs hs
    exact psm_of_sink_false sink now msg rs hs
  · intro sink now msg rs hcur hrate hsink
    exact psm_retryable sink now msg rs hcur hrate hsink

/-- Witness for C2 (amended): the failure clause on the concrete failed
message of the counterexample batch. -/
theorem C2_batch_order_and_failure_witness :
    (process_single_message sinkFailsOn6 0 (directTextMsg 6) rsCursor5).1 = false ∧
    (process_single_message sinkFailsOn6 0 (directTextMsg 6) rsCursor5).2.state =
      rsCursor5.state :=
  C2_batch_order_and_failure.2.2.1 sinkFailsOn6 0 (directTextMsg 6) rsCursor5 (by decide)

theorem is_allowed_window (rl : RateLimiter) (now : Int) (k : String) :
    tsAt (rl.is_allowed now k).2 k =
      (tsAt rl k).filter (fun ts => now - 60 < ts) ++
        (if (rl.is_allowed now k).1 then [now] else []) := by
  unfold RateLimiter.is_allowed tsAt
  by_cases h : rl.max_per_minute ≤
      (((rl.contact_timestamps.lookup k).getD []).filter (fun ts => now - 60 < ts)).length
  · simp [h, lookup_setAssoc_self]
  · simp [h, lookup_setAssoc_self]

theorem is_allowed_false_iff (rl : RateLimiter) (now : Int) (k : String) :
    (rl.is_allowed now k).1 = false ↔
      rl.max_per_minute ≤ ((tsAt rl k).filter (fun ts => now - 60 < ts)).length := by
  unfold RateLimiter.is_allowed tsAt
  by_cases h : rl.max_per_minute ≤
      (((rl.contact_timestamps.lookup k).getD []).filter (fun ts => now - 60 < ts)).length
  · simp [h]
  · simp [h]

theorem is_allowed_other_key (rl : RateLimiter) (now : Int) (k k' : String)
    (h : k' ≠ k) : tsAt (rl.is_allowed now k).2 k' = tsAt rl k' := by
  unfold RateLimiter.is_allowed tsAt
  by_cases hl : rl.max_per_minute ≤
      (((rl.contact_timestamps.lookup k).getD []).filter (fun ts => now - 60 < ts)).length
  · simp [hl, lookup_setAssoc_ne _ _ _ _ h]
  · simp [hl, lookup_setAssoc_ne _ _ _ _ h]

theorem psm_group_no_rate_limit (sink : Message → Bool) (now : Int) (msg : Message)
    (rs : RelayState) (gid : Int) (gn : String) (mid : Option Int) (dn : String)
    (hc : msg.conv = .group gid gn mid dn) :
    (process_single_message sink now msg rs).2.rate_limiter = rs.rate_limiter ∧
    (process_single_message sink now msg rs).2.metrics.rate_limited =
      rs.metrics.rate_limited := by
  unfold process_single_message
  by_cases h1 : msg.itemId ≤ (rs.state.lookup (state_key msg)).getD 0
  · simp [h1]
  · by_cases hs : sink msg
    · simp [if_neg h1, hc, hs, BridgeMetrics.record_message_type]
    · simp [if_neg h1, hc, hs]

theorem psm_rate_denied (sink : Message → Bool) (now : Int) (msg : Message)
    (rs : RelayState) (cid : Int) (dn : String)
    (hc : msg.conv = .direct cid dn)
    (hcur : cursorAt rs (state_key msg) < msg.itemId)
    (hdeny : (rs.rate_limiter.is_allowed now (state_key msg)).1 = false) :
    (process_single_message sink now msg rs).1 = false ∧
    (process_single_message sink now msg rs).2.state = rs.state ∧
    (process_single_message sink now msg rs).2.metrics.rate_limited =
      rs.metrics.rate_limited + 1 := by
  unfold process_single_message
  have h1 : ¬ msg.itemId ≤ (rs.state.lookup (state_key msg)).getD 0 := by
    unfold cursorAt at hcur
    omega
  simp [if_neg h1, hc, hdeny]

/-- C6: `is_allowed` purges expired timestamps on every call, denies when
the surviving count has reached the limit, records `now` only on `true`
(all other conversations' windows untouched); in the relay step the rate
limiter is consulted only for direct conversations; a denied direct
message is dropped with a `rate_limited` increment and no cursor change;
and with limit 2/minute, three direct messages from one contact within 10
seconds yield exactly 2 forwarded and 1 dropped with `rate_limited` = 1
and the cursor stopped at the second message. -/
theorem C6_rate_limiter :
    (∀ (rl : RateLimiter) (now : Int) (k : String),
      tsAt (rl.is_allowed now k).2 k =
        (tsAt rl k).filter (fun ts => now - 60 < ts) ++
          (if (rl.is_allowed now k).1 then [now] else [])) ∧
    (∀ (rl : RateLimiter) (now : Int) (k : String),
      (rl.is_allowed now k).1 = false ↔
        rl.max_per_minute ≤ ((tsAt rl k).filter (fun ts => now - 60 < ts)).length) ∧
    (∀ (rl : RateLimiter) (now : Int) (k k' : String), k' ≠ k →
      tsAt (rl.is_allowed now k).2 k' = tsAt rl k') ∧
    (∀ (sink : Message → Bool) (now : Int) (msg : Message) (rs : RelayState)
      (gid : Int) (gn : String) (mid : Option Int) (dn : String),
      msg.conv = .group gid gn mid dn →
      (process_single_message sink now msg rs).2.rate_limiter = rs.rate_limiter ∧
      (process_single_message sink now msg rs).2.metrics.rate_limited =
        rs.metrics.rate_limited) ∧
    (∀ (sink : Message → Bool) (now : Int) (msg : Message) (rs : RelayState)
      (cid : Int) (dn : String),
      msg.conv = .direct cid dn →
      cursorAt rs (state_key msg) < msg.itemId →
      (rs.rate_limiter.is_allowed now (state_key msg)).1 = false →
      (process_single_message sink now msg rs).1 = false ∧
      (process_single_message sink now msg rs).2.state = rs.state ∧
      (process_single_message sink now msg rs).2.metrics.rate_limited =
        rs.metrics.rate_limited + 1) ∧
    ((process_batch (fun _ => true) 0
        [directTextMsg 1, directTextMsg 2, directTextMsg 3] rsLimit2).1.map
        (fun p => (p.1.itemId, p.2)) = [(1, true), (2, true), (3, false)] ∧
      (process_batch (fun _ => true) 0
        [directTextMsg 1, directTextMsg 2, directTextMsg 3]
          rsLimit2).2.metrics.rate_limited = 1 ∧
      cursorAt (process_batch (fun _ => true) 0
        [directTextMsg 1, directTextMsg 2, directTextMsg 3] rsLimit2).2 "100" = 2) := by
  refine ⟨is_allowed_window, is_allowed_false_iff, ?_, ?_, ?_, by decide⟩
  · intro rl now k k' h
    exact is_allowed_other_key rl now k k' h
  · intro sink now msg rs gid gn mid dn hc
    exact psm_group_no_rate_limit sink now msg rs gid gn mid dn hc
  · intro sink now msg rs cid dn hc hcur hdeny
    exact psm_rate_denied sink now msg rs cid dn hc hcur hdeny

/-- Witness for C6: the denial clause on the third concrete message of
its example. -/
theorem C6_rate_limiter_witness :
    (process_single_message (fun _ => true) 0 (directTextMsg 3)
      (process_batch (fun _ => true) 0 [directTextMsg 1, directTextMsg 2]
        rsLimit2).2).1 = false ∧
    (process_single_message (fun _ => true) 0 (directTextMsg 3)
      (process_batch (fun _ => true) 0 [directTextMsg 1, directTextMsg 2]
        rsLimit2).2).2.state =
      (process_batch (fun _ => true) 0 [directTextMsg 1, directTextMsg 2]
        rsLimit2).2.state ∧
    (process_single_message (fun _ => true) 0 (directTextMsg 3)
      (process_batch (fun _ => true) 0 [directTextMsg 1, directTextMsg 2]
        rsLimit2).2).2.metrics.rate_limited =
      (process_batch (fun _ => true) 0 [directTextMsg 1, directTextMsg 2]
        rsLimit2).2.metrics.rate_limited + 1 :=
  C6_rate_limiter.2.2.2.2.1 (fun _ => true) 0 (directTextMsg 3)
    (process_batch (fun _ => true) 0 [directTextMsg 1, directTextMsg 2] rsLimit2).2
    100 "Alice" (by decide) (by decide) (by decide)
/-- C3: with `max_retries = 3`, `backoff = 2`, a sink that always returns
HTTP 500 gets exactly 3 attempts with sleeps of `backoff * 2 ^ attempt`
seconds between them (2s then 4s) and the error is then raised; any sink
answering a 4xx other than 429 (e.g. 404) on the first attempt gets
exactly 1 attempt, no sleep, and an immediate raise; a successful first
attempt returns the sink's response body with no further attempts, and a
success on a retry likewise returns the body (shown after one 500). -/
theorem C3_retry_backoff :
    (post_with_retry 3 2 (fun _ => .httpError 500) {}).1 =
      { attempts := 3, sleeps := [2, 4], result := .raised (.http 500) } ∧
    (post_with_retry 3 2 (fun _ => .httpError 404) {}).1 =
      { attempts := 1, sleeps := [], result := .raised (.http 404) } ∧
    (∀ (max_retries : Nat) (backoff : ℚ) (sink : Nat → PostResult)
      (metrics : BridgeMetrics) (code : Nat),
      sink 0 = .httpError code → 400 ≤ code → code < 500 → code ≠ 429 →
      1 ≤ max_retries →
      (post_with_retry max_retries backoff sink metrics).1 =
        { attempts := 1, sleeps := [], result := .raised (.http code) }) ∧
    (∀ (max_retries : Nat) (backoff : ℚ) (sink : Nat → PostResult)
      (metrics : BridgeMetrics) (body : String),
      sink 0 = .success body → 1 ≤ max_retries →
      (post_with_retry max_retries backoff sink metrics).1 =
        { attempts := 1, sleeps := [], result := .ok body }) ∧
    (post_with_retry 3 2
        (fun a => if a = 0 then .httpError 500 else .success "OK") {}).1 =
      { attempts := 2, sleeps := [2], result := .ok "OK" } := by
  refine ⟨?_, ?_, ?_, ?_, ?_⟩
  · simp [post_with_retry, post_with_retry_go]
    norm_num
  · simp [post_with_retry, post_with_retry_go]
  · intro max_retries backoff sink metrics code hs h4 h5 h429 hmr
    cases max_retries with
    | zero => omega
    | succ n =>
      simp [post_with_retry, post_with_retry_go, hs, h4, h5, h429]
  · intro max_retries backoff sink metrics body hs hmr
    cases max_retries with
    | zero => omega
    | succ n =>
      simp [post_with_retry, post_with_retry_go, hs]
  · simp [post_with_retry, post_with_retry_go]

/-- Witness for C3: the immediate-failure clause at 404 and the success
clause, on concrete sinks. -/
theorem C3_retry_backoff_witness :
    (post_with_retry 3 2 (fun _ => .httpError 404) {}).1 =
      { attempts := 1, sleeps := [], result := .raised (.http 404) } ∧
    (post_with_retry 3 2 (fun _ => .success "OK") {}).1 =
      { attempts := 1, sleeps := [], result := .ok "OK" } :=
  ⟨C3_retry_backoff.2.2.1 3 2 (fun _ => .httpError 404) {} 404 rfl
      (by norm_num) (by norm_num) (by norm_num) (by norm_num),
   C3_retry_backoff.2.2.2.1 3 2 (fun _ => .success "OK") {} "OK" rfl (by norm_num)⟩

theorem ws_cmd_ok_match (corr : String) : ∀ (events : List RecvEvent) (j : WsFrame),
    ws_cmd corr .ok events = .ok j → j.corrId = some corr := by
  intro events
  induction events with
  | nil => intro j h; simp [ws_cmd, ws_cmd_recv_loop] at h
  | cons e rest ih =>
    intro j h
    cases e with
    | frame p =>
      cases p with
      | none => exact ih j (by simpa [ws_cmd, ws_cmd_recv_loop] using h)
      | some f =>
        by_cases hm : f.corrId = some corr
        · simp only [ws_cmd, ws_cmd_recv_loop, if_pos hm] at h
          cases h
          exact hm
        · exact ih j (by simpa [ws_cmd, ws_cmd_recv_loop, hm] using h)
    | timeout => simp [ws_cmd, ws_cmd_recv_loop] at h
    | closed => simp [ws_cmd, ws_cmd_recv_loop] at h
    | recvError => simp [ws_cmd, ws_cmd_recv_loop] at h

/-- C7: `ws_cmd` raises `ConnectionError` when the socket is closed or
errors at send; while waiting it skips frames which fail JSON decoding
and discards frames whose `corrId` does not match; a returned frame
always bears the requested `corrId` (the first matching frame is
returned, as the concrete run shows); no matching frame within the
timeout (receive timeout or deadline expiry) raises `TimeoutError`; and a
close or error mid-wait raises `ConnectionError`. -/
theorem C7_ws_cmd :
    (∀ (corr : String) (events : List RecvEvent),
      ws_cmd corr .closed events =
        .error (.connectionError "WebSocket closed before send") ∧
      ws_cmd corr .sendError events =
        .error (.connectionError "WebSocket send failed")) ∧
    (∀ (corr : String) (events : List RecvEvent) (j : WsFrame),
      ws_cmd corr .ok events = .ok j → j.corrId = some corr) ∧
    (∀ (corr : String) (rest : List RecvEvent),
      ws_cmd corr .ok (.frame none :: rest) = ws_cmd corr .ok rest) ∧
    (∀ (corr : String) (f : WsFrame) (rest : List RecvEvent),
      f.corrId ≠ some corr →
      ws_cmd corr .ok (.frame (some f) :: rest) = ws_cmd corr .ok rest) ∧
    (∀ (corr : String) (rest : List RecvEvent),
      ws_cmd corr .ok [] = .error .timeoutError ∧
      ws_cmd corr .ok (.timeout :: rest) = .error .timeoutError ∧
      ws_cmd corr .ok (.closed :: rest) =
        .error (.connectionError "WebSocket closed while waiting for response") ∧
      ws_cmd corr .ok (.recvError :: rest) =
        .error (.connectionError "WebSocket recv failed")) ∧
    ws_cmd "tail" .ok
      [.frame (some { corrId := some "other" }), .frame none,
       .frame (some { corrId := some "tail", payload := "resp" })] =
      .ok { corrId := some "tail", payload := "resp" } := by
  refine ⟨?_, ws_cmd_ok_match, ?_, ?_, ?_, by rfl⟩
  · intro corr events
    exact ⟨rfl, rfl⟩
  · intro corr rest
    rfl
  · intro corr f rest h
    simp [ws_cmd, ws_cmd_recv_loop, h]
  · intro corr rest
    exact ⟨rfl, rfl, rfl, rfl⟩

/-- Witness for C7: the matching-frame clause on the concrete run. -/
theorem C7_ws_cmd_witness :
    WsFrame.corrId { corrId := some "tail", payload := "resp" } = some "tail" :=
  C7_ws_cmd.2.1 "tail"
    [.frame (some { corrId := some "other" }), .frame none,
     .frame (some { corrId := some "tail", payload := "resp" })]
    { corrId := some "tail", payload := "resp" } (by rfl)


theorem coerceStateEntries_none_of_bad : ∀ (fields : List (String × Json)),
    (∃ kv ∈ fields, pyInt kv.2 = none) → coerceStateEntries fields = none := by
  intro fields
  induction fields with
  | nil => rintro ⟨kv, h, -⟩; simp at h
  | cons hd tl ih =>
    rintro ⟨kv, hmem, hbad⟩
    rcases List.mem_cons.mp hmem with h | h
    · subst h
      simp [coerceStateEntries, hbad]
    · obtain ⟨k, v⟩ := hd
      simp only [coerceStateEntries, ih ⟨kv, h, hbad⟩]
      cases pyInt v <;> rfl

theorem coerceStateEntries_all_good : ∀ (fields : List (String × Json)),
    (∀ kv ∈ fields, pyInt kv.2 ≠ none) →
    coerceStateEntries fields =
      some (fields.map (fun kv => (kv.1, (pyInt kv.2).getD 0))) := by
  intro fields
  induction fields with
  | nil => intro; rfl
  | cons hd tl ih =>
    intro h
    obtain ⟨k, v⟩ := hd
    have hv : pyInt v ≠ none := h (k, v) (List.mem_cons_self _ _)
    obtain ⟨i, hi⟩ := Option.ne_none_iff_exists'.mp hv
    have htl := ih (fun kv hkv => h kv (List.mem_cons_of_mem _ hkv))
    simp [coerceStateEntries, hi, htl]

/-- C8: loading the cursor state is total and never fatal: an absent,
empty, non-JSON, non-object file, or an object holding any value not
convertible to an integer yields the empty map; an object whose values
are all int-convertible yields the map with each key (already a string)
kept and each value coerced to an integer; shown also on a concrete
object with a rational, a numeric string, and a boolean value. -/
theorem C8_load_state :
    load_state .absent = [] ∧
    load_state .emptyFile = [] ∧
    load_state .notJson = [] ∧
    (∀ j : Json, (∀ fields, j ≠ .obj fields) → load_state (.json j) = []) ∧
    (∀ fields : List (String × Json), (∃ kv ∈ fields, pyInt kv.2 = none) →
      load_state (.json (.obj fields)) = []) ∧
    (∀ fields : List (String × Json), (∀ kv ∈ fields, pyInt kv.2 ≠ none) →
      load_state (.json (.obj fields)) =
        fields.map (fun kv => (kv.1, (pyInt kv.2).getD 0))) ∧
    load_state (.json (.obj [("5", .num 3), ("7", .str " 12 "), ("g", .bool true)])) =
      [("5", 3), ("7", 12), ("g", 1)] := by
  refine ⟨rfl, rfl, rfl, ?_, ?_, ?_, by decide⟩
  · intro j h
    cases j with
    | obj fields => exact absurd rfl (h fields)
    | null => rfl
    | bool b => rfl
    | num q => rfl
    | str s => rfl
    | arr elems => rfl
  · intro fields h
    simp [load_state, coerceStateEntries_none_of_bad fields h]
  · intro fields h
    simp [load_state, coerceStateEntries_all_good fields h]

/-- Witness for C8: the all-convertible clause on a concrete object. -/
theorem C8_load_state_witness :
    load_state (.json (.obj [("9", .num 4)])) =
      [("9", Json.num 4)].map (fun kv => (kv.1, (pyInt kv.2).getD 0)) :=
  C8_load_state.2.2.2.2.2.1 [("9", .num 4)] (by decide)

/-- C9: cursor persistence is atomic.  Whenever the save does not succeed
— an exception during the temp-file write, an exception at the rename, or
a process crash mid-write or between write and rename — the prior state
file is left intact; in every case a reader sees either the old complete
file or the new complete file; on a handled failure the temp file is
removed and the error re-raised to the caller; and a successful save
installs exactly the new contents (with a `state_saves` increment),
leaving no temp file behind. -/
theorem C9_save_state_atomic :
    (∀ (data : String) (ev : SaveEvent) (fs : FileSystem) (m : BridgeMetrics),
      (save_state data ev fs m).1 ≠ .success →
      (save_state data ev fs m).2.1.state_file = fs.state_file) ∧
    (∀ (data : String) (ev : SaveEvent) (fs : FileSystem) (m : BridgeMetrics),
      (save_state data ev fs m).2.1.state_file = fs.state_file ∨
      (save_state data ev fs m).2.1.state_file = some data) ∧
    (∀ (data : String) (ev : SaveEvent) (fs : FileSystem) (m : BridgeMetrics),
      (save_state data ev fs m).1 = .raised →
      (save_state data ev fs m).2.1.tmp_file = none) ∧
    (∀ (data part : String) (fs : FileSystem) (m : BridgeMetrics),
      (save_state data (.failWrite part) fs m).1 = .raised ∧
      (save_state data .failRename fs m).1 = .raised) ∧
    (∀ (data : String) (fs : FileSystem) (m : BridgeMetrics),
      save_state data .ok fs m =
        (.success, { state_file := some data, tmp_file := none },
         { m with state_saves := m.state_saves + 1 })) := by
  refine ⟨?_, ?_, ?_, ?_, ?_⟩
  · intro data ev fs m h
    cases ev with
    | ok => exact absurd rfl h
    | failWrite part => rfl
    | failRename => rfl
    | crashWrite part => rfl
    | crashBeforeRename => rfl
  · intro data ev fs m
    cases ev with
    | ok => exact Or.inr rfl
    | failWrite part => exact Or.inl rfl
    | failRename => exact Or.inl rfl
    | crashWrite part => exact Or.inl rfl
    | crashBeforeRename => exact Or.inl rfl
  · intro data ev fs m h
    cases ev with
    | ok => simp [save_state] at h
    | failWrite part => rfl
    | failRename => rfl
    | crashWrite part => simp [save_state] at h
    | crashBeforeRename => simp [save_state] at h
  · intro data part fs m
    exact ⟨rfl, rfl⟩
  · intro data fs m
    rfl

/-- Witness for C9: the prior-file-intact clause on a concrete crash
between temp-write and rename. -/
theorem C9_save_state_atomic_witness :
    (save_state "new" .crashBeforeRename
      { state_file := some "old", tmp_file := none } {}).2.1.state_file =
      FileSystem.state_file { state_file := some "old", tmp_file := none } :=
  C9_save_state_atomic.1 "new" .crashBeforeRename
    { state_file := some "old", tmp_file := none } {} (by decide)

/-- C10: `POST /send` checks `contactId` and `text` by truthiness: a body
whose `contactId` is 0 or whose `text` is the empty string gets the same
400 "Missing contactId or text" response as a body missing the field, and
`send_to_simplex` is not invoked; `send_to_simplex` is reached only when
both fields are truthy. -/
theorem C10_handle_send_truthiness :
    (∀ (body : List (String × Json)) (send_ok : Bool),
      body.lookup "contactId" = some (.num 0) →
      handle_send body send_ok = (.err400 "Missing contactId or text", false)) ∧
    (∀ (body : List (String × Json)) (send_ok : Bool),
      body.lookup "text" = some (.str "") →
      handle_send body send_ok = (.err400 "Missing contactId or text", false)) ∧
    (∀ (body : List (String × Json)) (send_ok : Bool),
      body.lookup "contactId" = none →
      handle_send body send_ok = (.err400 "Missing contactId or text", false)) ∧
    (∀ (body : List (String × Json)) (send_ok : Bool),
      (handle_send body send_ok).2 = true →
      pyTruthy (body.lookup "contactId") = true ∧
      pyTruthy (body.lookup "text") = true) ∧
    handle_send [("contactId", .num 0), ("text", .str "hi")] true =
      (.err400 "Missing contactId or text", false) ∧
    handle_send [("contactId", .num 3), ("text", .str "")] true =
      (.err400 "Missing contactId or text", false) ∧
    handle_send [("contactId", .num 3), ("text", .str "hi")] true =
      (.ok200 "sent", true) := by
  refine ⟨?_, ?_, ?_, ?_, by decide, by decide, by decide⟩
  · intro body send_ok h
    simp [handle_send, h, pyTruthy]
  · intro body send_ok h
    unfold handle_send
    rw [h]
    simp [pyTruthy]
  · intro body send_ok h
    simp [handle_send, h, pyTruthy]
  · intro body send_ok h
    by_cases hc : pyTruthy (body.lookup "contactId")
    · by_cases ht : pyTruthy (body.lookup "text")
      · exact ⟨hc, ht⟩
      · exfalso
        simp [handle_send, ht] at h
    · exfalso
      simp [handle_send, hc] at h

/-- Witness for C10: the zero-`contactId` clause on a concrete body. -/
theorem C10_handle_send_truthiness_witness :
    handle_send [("contactId", .num 0), ("text", .str "yo")] true =
      (.err400 "Missing contactId or text", false) :=
  C10_handle_send_truthiness.1 [("contactId", .num 0), ("text", .str "yo")] true rfl

theorem extract_direct_necessary (ci : RawChatRecord) (m : Message)
    (h : extract_direct_message ci = some m) :
    chatDirTypeOf ci = "directRcv" ∧
    ((ci.chatInfo.getD {}).contact.getD {}).contactId ≠ none ∧
    ((ci.chatItem.getD {}).meta.getD {}).itemId ≠ none := by
  simp only [extract_direct_message] at h
  split at h
  · exact absurd h (by simp)
  · rename_i hdir
    rw [not_not] at hdir
    split at h
    · rename_i cid iid hcid hiid
      refine ⟨by unfold chatDirTypeOf; exact hdir, ?_, ?_⟩
      · rw [hcid]; simp
      · rw [hiid]; simp
    · exact absurd h (by simp)

theorem extract_group_necessary (config : BridgeConfig) (ci : RawChatRecord)
    (m : Message) (h : extract_group_message config ci = some m) :
    config.enable_group_chat = true ∧
    chatDirTypeOf ci = "groupRcv" ∧
    ((ci.chatInfo.getD {}).groupInfo.getD {}).groupId ≠ none ∧
    ((ci.chatItem.getD {}).meta.getD {}).itemId ≠ none := by
  simp only [extract_group_message] at h
  split at h
  · exact absurd h (by simp)
  · rename_i hen
    rw [not_not] at hen
    split at h
    · exact absurd h (by simp)
    · rename_i hdir
      rw [not_not] at hdir
      split at h
      · rename_i gid iid hgid hiid
        refine ⟨hen, by unfold chatDirTypeOf; exact hdir, ?_, ?_⟩
        · rw [hgid]; simp
        · rw [hiid]; simp
      · exact absurd h (by simp)

/-- C4: the normalizer yields a message only when the record's direction
flag is the "received" value for its conversation kind (`directRcv` for
direct; `groupRcv` plus the group-chat configuration flag for group) and
the conversation identifier and sequence number are non-null; a direct
record with direction `directRcv`, text "hello", sequence 42,
conversation 100 normalizes to a text message with text "hello" and
sequence 42, while the identical record with direction `directSnd`
normalizes to null. -/
theorem C4_normalizer_gating :
    (∀ (ci : RawChatRecord) (m : Message), extract_direct_message ci = some m →
      chatDirTypeOf ci = "directRcv" ∧
      ((ci.chatInfo.getD {}).contact.getD {}).contactId ≠ none ∧
      ((ci.chatItem.getD {}).meta.getD {}).itemId ≠ none) ∧
    (∀ (config : BridgeConfig) (ci : RawChatRecord) (m : Message),
      extract_group_message config ci = some m →
      config.enable_group_chat = true ∧
      chatDirTypeOf ci = "groupRcv" ∧
      ((ci.chatInfo.getD {}).groupInfo.getD {}).groupId ≠ none ∧
      ((ci.chatItem.getD {}).meta.getD {}).itemId ≠ none) ∧
    (extract_message {} rcDirectHello).map (fun m => (m.type, m.text, m.itemId)) =
      some ("text", "hello", 42) ∧
    extract_message {} rcDirectHelloSent = none := by
  refine ⟨extract_direct_necessary, extract_group_necessary, by decide, by decide⟩

/-- Witness for C4: the direct gating clause on the concrete record. -/
theorem C4_normalizer_gating_witness :
    chatDirTypeOf rcDirectHello = "directRcv" ∧
    ((rcDirectHello.chatInfo.getD {}).contact.getD {}).contactId ≠ none ∧
    ((rcDirectHello.chatItem.getD {}).meta.getD {}).itemId ≠ none :=
  C4_normalizer_gating.1 rcDirectHello
    { conv := .direct 100 "Alice", type := "text", text := "hello", itemId := 42,
      chatDir := "directRcv" } (by decide)

theorem extract_direct_text_nonempty (ci : RawChatRecord) (m : Message)
    (h : extract_direct_message ci = some m) (ht : m.type = "text") :
    m.text ≠ "" := by
  simp only [extract_direct_message] at h
  split at h
  · exact absurd h (by simp)
  · split at h
    · split at h
      · cases h
        simp at ht
      · split at h
        · cases h
          simp at ht
        · split at h
          · cases h
            simp at ht
          · split at h
            · exact absurd h (by simp)
            · rename_i hne
              cases h
              exact hne
    · exact absurd h (by simp)

theorem extract_group_text_nonempty (config : BridgeConfig) (ci : RawChatRecord)
    (m : Message) (h : extract_group_message config ci = some m)
    (ht : m.type = "text") : m.text ≠ "" := by
  simp only [extract_group_message] at h
  split at h
  · exact absurd h (by simp)
  · split at h
    · exact absurd h (by simp)
    · split at h
      · split at h
        · exact absurd h (by simp)
        · rename_i hne
          cases h
          simp only [not_and] at hne
          intro hempty
          exact (hne hempty) ht
      · exact absurd h (by simp)

theorem extract_direct_nontext_meta (ci : RawChatRecord) (m : Message)
    (h : extract_direct_message ci = some m) :
    (m.type = "voice" → m.text ≠ "" ∧
      m.filePath = some ((msgContentOf ci).voice.getD {}).filePath ∧
      m.duration = some ((msgContentOf ci).voice.getD {}).duration) ∧
    (m.type = "image" → m.text ≠ "" ∧
      m.filePath = some ((msgContentOf ci).image.getD {}).filePath) ∧
    (m.type = "file" → m.text ≠ "" ∧
      m.filePath = some ((msgContentOf ci).file.getD {}).filePath ∧
      m.fileName = some ((msgContentOf ci).file.getD {}).fileName ∧
      m.fileSize = some ((msgContentOf ci).file.getD {}).fileSize) := by
  simp only [extract_direct_message] at h
  split at h
  · exact absurd h (by simp)
  · split at h
    · split at h
      · -- voice branch
        cases h
        refine ⟨?_, ?_, ?_⟩
        · intro _
          refine ⟨?_, by unfold msgContentOf; rfl, by unfold msgContentOf; rfl⟩
          dsimp only
          split
          · decide
          · assumption
        · intro habs
          simp at habs
        · intro habs
          simp at habs
      · split at h
        · -- image branch
          cases h
          refine ⟨?_, ?_, ?_⟩
          · intro habs
            simp at habs
          · intro _
            refine ⟨?_, by unfold msgContentOf; rfl⟩
            dsimp only
            split
            · decide
            · assumption
          · intro habs
            simp at habs
        · split at h
          · -- file branch
            cases h
            refine ⟨?_, ?_, ?_⟩
            · intro habs
              simp at habs
            · intro habs
              simp at habs
            · intro _
              refine ⟨?_, by unfold msgContentOf; rfl, by unfold msgContentOf; rfl,
                by unfold msgContentOf; rfl⟩
              dsimp only
              split
              · intro contra
                have hlen := congrArg String.length contra
                rw [String.length_append, String.length_append] at hlen
                have h7 : "[File: ".length = 7 := by decide
                have h1 : "]".length = 1 := by decide
                have h0 : "".length = 0 := by decide
                omega
              · assumption
          · -- text branch
            split at h
            · exact absurd h (by simp)
            · cases h
              refine ⟨?_, ?_, ?_⟩ <;>
              · intro habs
                simp at habs
    · exact absurd h (by simp)

/-- C5, counterexample: with group chat enabled, a received group voice
message with no caption normalizes to a message whose text is the empty
string — no "[Voice message]" placeholder is synthesized — and which
carries no kind-specific metadata fields (no file path, duration), even
though the record has them; the claim's placeholder-and-metadata rule
does not hold for group messages. -/
theorem C5_counterexample :
    extract_message cfgGroupOn rcGroupVoiceNoCaption =
      some { conv := .group 7 "" none "", type := "voice", text := "",
             itemId := 3, chatDir := "groupRcv" } ∧
    (extract_message cfgGroupOn rcGroupVoiceNoCaption).map Message.text =
      some "" ∧
    (extract_message cfgGroupOn rcGroupVoiceNoCaption).map Message.filePath =
      some none ∧
    (extract_message cfgGroupOn rcGroupVoiceNoCaption).map Message.duration =
      some none := by
  decide

/-- C5 (amended): every normalized message of text kind — direct or group
— has non-empty text; for *direct* messages of a non-text kind (voice,
image, file) the normalizer synthesizes a non-empty placeholder when no
caption is present and attaches the kind-specific metadata from the
record, absent fields defaulting to null rather than dropping the
message (shown concretely on a voice record with no `voice` dict at
all); group messages of non-text kinds are forwarded with the record's
raw caption text (possibly empty) and without metadata fields (see the
counterexample). -/
theorem C5_text_and_placeholders :
    (∀ (ci : RawChatRecord) (m : Message), extract_direct_message ci = some m →
      m.type = "text" → m.text ≠ "") ∧
    (∀ (config : BridgeConfig) (ci : RawChatRecord) (m : Message),
      extract_group_message config ci = some m → m.type = "text" → m.text ≠ "") ∧
    (∀ (ci : RawChatRecord) (m : Message), extract_direct_message ci = some m →
      (m.type = "voice" → m.text ≠ "" ∧
        m.filePath = some ((msgContentOf ci).voice.getD {}).filePath ∧
        m.duration = some ((msgContentOf ci).voice.getD {}).duration) ∧
      (m.type = "image" → m.text ≠ "" ∧
        m.filePath = some ((msgContentOf ci).image.getD {}).filePath) ∧
      (m.type = "file" → m.text ≠ "" ∧
        m.filePath = some ((msgContentOf ci).file.getD {}).filePath ∧
        m.fileName = some ((msgContentOf ci).file.getD {}).fileName ∧
        m.fileSize = some ((msgContentOf ci).file.getD {}).fileSize)) ∧
    extract_direct_message rcDirectVoiceNoDict =
      some { conv := .direct 100 "", type := "voice", text := "[Voice message]",
             itemId := 9, chatDir := "directRcv",
             filePath := some none, duration := some none } := by
  exact ⟨extract_direct_text_nonempty, extract_group_text_nonempty,
    extract_direct_nontext_meta, by decide⟩

/-- Witness for C5 (amended): the direct text-kind clause on the concrete
"hello" record. -/
theorem C5_text_and_placeholders_witness :
    Message.text { conv := .direct 100 "Alice", type := "text", text := "hello", itemId := 42, chatDir := "directRcv" } ≠ "" :=
  C5_text_and_placeholders.1 rcDirectHello
    { conv := .direct 100 "Alice", type := "text", text := "hello", itemId := 42,
      chatDir := "directRcv" } (by decide) (by decide)
end Bridge
